import Mathlib

/-!
Verification development for the opds-server repository: a shallow embedding
of the catalog feed generation and pagination core (db/access.py,
services/opds.py, core/config.py, api/catalog.py, main.py) together with
theorems about the embedded operations.

SQL queries are embedded relationally: a query's ordered result set is a
Lean list, ORDER BY is a stable insertion sort on the named column,
LIMIT n OFFSET k is List.take n after List.drop k, and SQL LIKE is an
executable matcher over characters with the SQLite wildcard semantics
for the percent and underscore characters.  SQLite LOWER folds only the
ASCII range, embedded here as lowerChar/asciiLower.  Python dictionaries
keyed by book id are association lists with insert-or-overwrite
semantics.  Fallible Python code (raised HTTPException, TypeError,
IndexError) is embedded with Except.
-/

/-- Character list utilities: startsWith l pat is true when pat is a prefix
of l (the pattern is the second argument, compared pattern-side first). -/
def startsWith : List Char → List Char → Bool
  | _, [] => true
  | [], _ :: _ => false
  | c :: l, p :: ps => p == c && startsWith l ps

/-- hasSub l pat is true when pat occurs contiguously inside l. -/
def hasSub : List Char → List Char → Bool
  | [], pat => pat.isEmpty
  | c :: l, pat => startsWith (c :: l) pat || hasSub l pat

/-- ASCII lowercasing of one character: the semantics of SQLite LOWER and of
Python str.lower restricted to ASCII input (all inputs in this development
are ASCII).  Mirrors core Char.toLower. -/
def lowerChar (c : Char) : Char :=
  if 65 ≤ c.toNat && c.toNat ≤ 90 then Char.ofNat (c.toNat + 32) else c

/-- ASCII lowercasing of a character list. -/
def lowerL (l : List Char) : List Char := l.map lowerChar

/-- ASCII lowercasing of a string. -/
def asciiLower (s : String) : String := String.mk (lowerL s.data)

/-- ASCII whitespace recognizer used by the embedding of Python str.strip. -/
def isPyWhitespace (c : Char) : Bool :=
  c == ' ' || c == Char.ofNat 9 || c == Char.ofNat 10 || c == Char.ofNat 11 ||
    c == Char.ofNat 12 || c == Char.ofNat 13

/-- Embedding of Python str.strip() for ASCII input: drop leading and
trailing whitespace. -/
def pyStrip (s : String) : String :=
  String.mk (((s.data.dropWhile isPyWhitespace).reverse.dropWhile isPyWhitespace).reverse)

/-- UTF-8 encoding of one character as its list of bytes (each a Nat). -/
def utf8Char (c : Char) : List Nat :=
  let n := c.toNat
  if n < 128 then [n]
  else if n < 2048 then [192 + n / 64, 128 + n % 64]
  else if n < 65536 then [224 + n / 4096, 128 + (n / 64) % 64, 128 + n % 64]
  else [240 + n / 262144, 128 + (n / 4096) % 64, 128 + (n / 64) % 64, 128 + n % 64]

/-- UTF-8 encoding of a string, the embedding of Python str.encode("utf-8"). -/
def utf8Encode (s : String) : List Nat := s.data.flatMap utf8Char

/-- Left rotation of a 32-bit word represented as a Nat below 2^32. -/
def rotl32 (n x : Nat) : Nat :=
  ((x <<< n) % 4294967296) ||| (x >>> (32 - n))

/-- Big-endian 8-byte encoding of a Nat, used for the SHA-1 length field. -/
def be8 (n : Nat) : List Nat :=
  [(n >>> 56) % 256, (n >>> 48) % 256, (n >>> 40) % 256, (n >>> 32) % 256,
   (n >>> 24) % 256, (n >>> 16) % 256, (n >>> 8) % 256, n % 256]

/-- SHA-1 padding: append 0x80, zero bytes to 56 mod 64, and the bit length. -/
def sha1pad (msg : List Nat) : List Nat :=
  let len := msg.length
  let zeros := (120 - (len + 1) % 64) % 64
  msg ++ [128] ++ List.replicate zeros 0 ++ be8 (len * 8)

/-- Group bytes into big-endian 32-bit words. -/
def wordsOfBytes : List Nat → List Nat
  | b0 :: b1 :: b2 :: b3 :: rest =>
      (b0 * 16777216 + b1 * 65536 + b2 * 256 + b3) :: wordsOfBytes rest
  | _ => []

/-- Group a word list into 16-word chunks (structural recursion so that the
kernel can evaluate it inside decide). -/
def chunksOf16 : List Nat → List (List Nat)
  | a0 :: a1 :: a2 :: a3 :: a4 :: a5 :: a6 :: a7 ::
    a8 :: a9 :: a10 :: a11 :: a12 :: a13 :: a14 :: a15 :: rest =>
      [a0, a1, a2, a3, a4, a5, a6, a7, a8, a9, a10, a11, a12, a13, a14, a15] ::
        chunksOf16 rest
  | _ => []

/-- SHA-1 message schedule: extend 16 words to 80 by the rotate-xor rule. -/
def extendW : List Nat → Nat → List Nat
  | w, 0 => w
  | w, k + 1 =>
      let n := w.length
      extendW (w ++ [rotl32 1 ((w.getD (n - 3) 0) ^^^ (w.getD (n - 8) 0) ^^^
        (w.getD (n - 14) 0) ^^^ (w.getD (n - 16) 0))]) k

/-- SHA-1 round function, by round index. -/
def sha1f (i b c d : Nat) : Nat :=
  if i < 20 then (b &&& c) ||| ((b ^^^ 4294967295) &&& d)
  else if i < 40 then b ^^^ c ^^^ d
  else if i < 60 then (b &&& c) ||| (b &&& d) ||| (c &&& d)
  else b ^^^ c ^^^ d

/-- SHA-1 round constants, by round index. -/
def sha1k (i : Nat) : Nat :=
  if i < 20 then 1518500249
  else if i < 40 then 1859775393
  else if i < 60 then 2400959708
  else 3395469782

/-- One SHA-1 round on the five-word state. -/
def sha1round (st : Nat × Nat × Nat × Nat × Nat) (iw : Nat × Nat) :
    Nat × Nat × Nat × Nat × Nat :=
  let (a, b, c, d, e) := st
  let (i, wi) := iw
  let temp := (rotl32 5 a + sha1f i b c d + e + sha1k i + wi) % 4294967296
  (temp, a, rotl32 30 b, c, d)

/-- Process one 16-word chunk of the padded message. -/
def sha1chunk (h : Nat × Nat × Nat × Nat × Nat) (ws : List Nat) :
    Nat × Nat × Nat × Nat × Nat :=
  let (h0, h1, h2, h3, h4) := h
  let w := extendW ws 64
  let (a, b, c, d, e) :=
    ((List.range 80).zip w).foldl sha1round (h0, h1, h2, h3, h4)
  ((h0 + a) % 4294967296, (h1 + b) % 4294967296, (h2 + c) % 4294967296,
   (h3 + d) % 4294967296, (h4 + e) % 4294967296)

/-- SHA-1 of a byte list, returned as the 160-bit digest value. -/
def sha1 (msg : List Nat) : Nat :=
  let chunks := chunksOf16 (wordsOfBytes (sha1pad msg))
  let (h0, h1, h2, h3, h4) :=
    chunks.foldl sha1chunk (1732584193, 4023233417, 2562383102, 271733878, 3285377520)
  (h0 <<< 128) + (h1 <<< 96) + (h2 <<< 64) + (h3 <<< 32) + h4

/-- Lowercase hex digit for a value below 16. -/
def hexChar (n : Nat) : Char :=
  if n < 10 then Char.ofNat (48 + n) else Char.ofNat (87 + n)

/-- Fixed-width lowercase hex rendering of a Nat, most significant digit
first. -/
def hexOfNat (width x : Nat) : List Char :=
  (List.range width).map (fun i => hexChar ((x >>> ((width - 1 - i) * 4)) % 16))

/-- Lowercase hex digest string of SHA-1, the embedding of hexdigest(). -/
def sha1hex (msg : List Nat) : String := String.mk (hexOfNat 40 (sha1 msg))

/-- Uppercase hex digit for a value below 16 (percent-encoding uses upper
case). -/
def hexCharUpper (n : Nat) : Char :=
  if n < 10 then Char.ofNat (48 + n) else Char.ofNat (55 + n)

/-- Percent-encoding of one byte as a three-character sequence. -/
def percentByte (b : Nat) : List Char :=
  [Char.ofNat 37, hexCharUpper (b / 16), hexCharUpper (b % 16)]

/-- Characters Python urllib never quotes: ASCII letters, digits, and the
four always-safe punctuation characters. -/
def isUrlSafe (c : Char) : Bool :=
  (65 ≤ c.toNat && c.toNat ≤ 90) || (97 ≤ c.toNat && c.toNat ≤ 122) ||
    (48 ≤ c.toNat && c.toNat ≤ 57) ||
    c == Char.ofNat 95 || c == Char.ofNat 46 || c == Char.ofNat 45 || c == Char.ofNat 126

/-- Embedding of urllib quote_plus on one character: space becomes plus,
safe characters pass through, everything else is percent-encoded bytewise. -/
def quotePlusChar (c : Char) : List Char :=
  if c == ' ' then [Char.ofNat 43]
  else if isUrlSafe c then [c]
  else (utf8Char c).flatMap percentByte

/-- Embedding of urllib quote_plus on a string. -/
def quote_plus (s : String) : String := String.mk (s.data.flatMap quotePlusChar)

/-- Embedding of urllib urlencode with its default quote_plus quoting:
key=value pairs joined by ampersands. -/
def urlencode_pairs (params : List (String × String)) : String :=
  String.intercalate "&" (params.map (fun p => quote_plus p.1 ++ "=" ++ quote_plus p.2))

/-- Fuel-driven matcher for SQLite LIKE over already-lowercased character
lists: percent matches any sequence, underscore matches one character, any
other pattern character matches itself.  The fuel argument makes the
recursion structural so the kernel can evaluate it; likeMatch below supplies
sufficient fuel. -/
def likeMatchF : Nat → List Char → List Char → Bool
  | 0, _, _ => false
  | _ + 1, [], s => s.isEmpty
  | fuel + 1, p :: ps, s =>
      if p == '%' then
        likeMatchF fuel ps s ||
          (match s with
           | [] => false
           | _ :: t => likeMatchF fuel (p :: ps) t)
      else
        match s with
        | [] => false
        | c :: t => (p == '_' || p == c) && likeMatchF fuel ps t

/-- SQLite LIKE matching of a pattern against a subject. -/
def likeMatch (ps s : List Char) : Bool :=
  likeMatchF (ps.length + s.length + 1) ps s

/-- Embedding of the WHERE clause of search_books: LOWER(title) LIKE
LOWER(percent ++ query ++ percent). -/
def search_matches (query title : String) : Bool :=
  likeMatch (lowerL ("%" ++ query ++ "%").data) (lowerL title.data)

/-- Stable insertion into a list sorted by the given Bool-valued order. -/
def insertLe {α : Type} (le : α → α → Bool) (x : α) : List α → List α
  | [] => [x]
  | y :: ys => if le x y then x :: y :: ys else y :: insertLe le x ys

/-- Stable insertion sort, the embedding of SQL ORDER BY on a result set. -/
def sortLe {α : Type} (le : α → α → Bool) (l : List α) : List α :=
  l.foldr (insertLe le) []

/-- Lexicographic order on character lists by code point, the order SQLite
BINARY collation induces on UTF-8 text. -/
def leChars : List Char → List Char → Bool
  | [], _ => true
  | _ :: _, [] => false
  | a :: as, b :: bs =>
      if a.toNat = b.toNat then leChars as bs else decide (a.toNat < b.toNat)

/-- String comparison under SQLite BINARY collation. -/
def strLe (a b : String) : Bool := leChars a.data b.data

/-- Errors raised by the embedded Python code. -/
inductive PyErr : Type
  | typeError (msg : String)
  | indexError
  | httpException (status : Nat) (detail : String)
deriving DecidableEq, Repr

/-- Recognizer for a raised TypeError in an embedded computation. -/
def isTypeError {α : Type} : Except PyErr α → Bool
  | .error (.typeError _) => true
  | _ => false

/-- Row of the Calibre books table as used by the queries in db/access.py:
id, title, last_modified, the on-disk folder path, and the sort column. -/
structure BookRow : Type where
  id : Int
  title : String
  last_modified : String
  path : String
  sort : String
deriving DecidableEq, Repr

/-- Row of the Calibre authors table: id, name and the sort column. -/
structure AuthorRow : Type where
  id : Int
  name : String
  sort : String
deriving DecidableEq, Repr

/-- Denormalized book record built by add_authors/add_files: title,
last_modified, author (id, name) pairs and file (format, name) pairs. -/
structure Book : Type where
  title : String
  last_modified : String
  authors : List (Int × String)
  files : List (String × String)
deriving DecidableEq, Repr

/-- Configuration object from core/config.py with its defaults. -/
structure Config : Type where
  app_name : String := "OPDS Server"
  package_name : String := "opds-server"
  calibre_library_path : String := "/books"
  opds_prefix : String := "/opds"
  page_size : Nat := 30
deriving DecidableEq, Repr

/-- Embedding of get_config: the settings object with default values. -/
def get_config : Config := {}

/-- Dynamically typed Python value, needed where a Config object flows into
an int-typed position. -/
inductive PyVal : Type
  | int (n : Int)
  | config (c : Config)
deriving DecidableEq, Repr

/-- Drop trailing slash characters, the embedding of str.rstrip("/"). -/
def rstripSlash (s : String) : String :=
  String.mk ((s.data.reverse.dropWhile (fun c => c == Char.ofNat 47)).reverse)

/-- Detail string of the HTTP 500 raised by get_db_path when the Calibre
database file is missing; it interpolates the resolved absolute path. -/
def db_not_found_detail (path : String) : String :=
  "Calibre DB not found at " ++ path

/-- Embedding of get_db_path: the resolved metadata.db path on success, the
500 HTTPException with the interpolated path when the file is absent. -/
def get_db_path (calibre_library_path : String) (dbExists : Bool) :
    Except PyErr String :=
  let path := rstripSlash calibre_library_path ++ "/metadata.db"
  if dbExists then .ok path
  else .error (.httpException 500 (db_not_found_detail path))

/-- Detail string of the 404 raised by get_book_title and get_cover_path. -/
def book_not_found_detail : String := "Book not found"

/-- Detail string of the 404 raised by get_book_file_path when the book id
is unknown; book_id is interpolated in its decimal rendering. -/
def book_with_id_not_found_detail (book_id : String) : String :=
  "Book with id=" ++ book_id ++ " not found"

/-- Detail string of the 404 raised by get_book_file_path when the book has
no file in the requested format. -/
def book_file_not_found_detail (book_id fmt : String) : String :=
  "Book file not found for book_id=" ++ book_id ++ " with format=" ++ fmt

/-- Detail string of the 404 raised by get_cover_path for a missing cover. -/
def cover_not_found_detail : String := "Cover not found"

/-- Detail string of the 404 raised by get_author_name. -/
def author_not_found_detail : String := "Author not found"

/-- Detail string of the 400 raised by get_books on a bad sort key. -/
def invalid_sort_detail : String := "Invalid sort parameter"

/-- Embedding of main.py http_exception_handler: the response body sent to
the client is exactly the exception detail, paired with the status code. -/
def http_exception_handler (status : Nat) (detail : String) : String × Nat :=
  (detail, status)

/-- Embedding of generate_book_id from db/access.py: the calibre-navcatalog
prefix joined to the lowercase hex SHA-1 of the stripped UTF-8 argument. -/
def generate_book_id (title : String) : String :=
  "calibre-navcatalog:" ++ sha1hex (utf8Encode (pyStrip title))

/-- Insert-or-overwrite on an association list, the embedding of assignment
into a Python dict keyed by book id. -/
def dictInsert (k : Int) (v : Book) (d : List (Int × Book)) : List (Int × Book) :=
  if d.any (fun p => p.1 == k) then
    d.map (fun p => if p.1 == k then (k, v) else p)
  else d ++ [(k, v)]

/-- Embedding of add_authors: build the ordered book dictionary from the
fetched rows, attaching to each book the (author id, name) pairs of the
books_authors_link join rows for its id. -/
def add_authors (links : List (Int × Int × String)) (rows : List BookRow) :
    List (Int × Book) :=
  rows.foldl
    (fun acc r =>
      dictInsert r.id
        { title := r.title
          last_modified := r.last_modified
          authors := (links.filter (fun l => l.1 == r.id)).map (fun l => (l.2.1, l.2.2))
          files := [] } acc)
    []

/-- Embedding of add_files: attach to every book the (format, name) pairs of
its rows in the data table. -/
def add_files (fileRows : List (Int × String × String)) (d : List (Int × Book)) :
    List (Int × Book) :=
  d.map (fun p =>
    (p.1, { p.2 with files := (fileRows.filter (fun f => f.1 == p.1)).map (fun f => (f.2.1, f.2.2)) }))

/-- Embedding of select_books: fetch limit+1 ordered rows at offset
(page-1)*limit, compute has_next from the fetched count and has_previous
from the offset, and build page content from only the first limit rows. -/
def select_books (rows : List BookRow) (links : List (Int × Int × String))
    (fileRows : List (Int × String × String)) (page limit : Nat) :
    List (Int × Book) × Bool × Bool :=
  let offset := (page - 1) * limit
  let books := (rows.drop offset).take (limit + 1)
  let has_next := decide (limit < books.length)
  let has_previous := decide (0 < offset)
  (add_files fileRows (add_authors links (books.take limit)), has_previous, has_next)

/-- Embedding of get_books: order the books table by title or by
last_modified according to the sort key and paginate through select_books;
any other sort key raises the 400 HTTPException. -/
def get_books (rows : List BookRow) (links : List (Int × Int × String))
    (fileRows : List (Int × String × String)) (sort : String) (page limit : Nat) :
    Except PyErr (List (Int × Book) × Bool × Bool) :=
  if sort == "by_title" then
    .ok (select_books (sortLe (fun a b => strLe a.title b.title) rows) links fileRows page limit)
  else if sort == "by_newest" then
    .ok (select_books (sortLe (fun a b => strLe a.last_modified b.last_modified) rows) links fileRows page limit)
  else .error (.httpException 400 invalid_sort_detail)

/-- Embedding of get_authors: order the authors table by the sort column,
project (id, name), fetch limit+1 rows at the page offset, and return the
fetched rows together with the pagination flags.  Note the source returns
the fetched rows without truncating away the look-ahead row. -/
def get_authors (tbl : List AuthorRow) (page limit : Nat) :
    List (Int × String) × Bool × Bool :=
  let rows := (sortLe (fun a b => strLe a.sort b.sort) tbl).map (fun a => (a.id, a.name))
  let offset := (page - 1) * limit
  let fetched := (rows.drop offset).take (limit + 1)
  (fetched, decide (0 < offset), decide (limit < fetched.length))

/-- Embedding of get_author_books: restrict the join of books and
books_authors_link to the given author, order by the book sort column, and
paginate through select_books. -/
def get_author_books (rows : List BookRow) (links : List (Int × Int × String))
    (fileRows : List (Int × String × String)) (author_id : Int) (page limit : Nat) :
    List (Int × Book) × Bool × Bool :=
  let joined := rows.filter (fun b => links.any (fun l => l.1 == b.id && l.2.1 == author_id))
  select_books (sortLe (fun a b => strLe a.sort b.sort) joined) links fileRows page limit

/-- Embedding of search_books: keep the books whose title matches the LIKE
pattern built from the query, order by the sort column, and paginate
through select_books. -/
def search_books (rows : List BookRow) (links : List (Int × Int × String))
    (fileRows : List (Int × String × String)) (query : String) (page limit : Nat) :
    List (Int × Book) × Bool × Bool :=
  select_books
    (sortLe (fun a b => strLe a.sort b.sort) (rows.filter (fun b => search_matches query b.title)))
    links fileRows page limit

/-- Embedding of get_author_name: the name of the author row with the given
id, or the 404 HTTPException. -/
def get_author_name (tbl : List AuthorRow) (author_id : Int) : Except PyErr String :=
  match tbl.find? (fun a => a.id == author_id) with
  | some a => .ok a.name
  | none => .error (.httpException 404 author_not_found_detail)

/-- Item entity from services/opds.py with the dataclass defaults; the
Python author dict is an optional (id, name) pair, empty dict meaning
none. -/
structure Item : Type where
  title : String
  id : String
  updated_time : String
  links : String
  db_id : Int := -1
  author : Option (Int × String) := none
  files : List (String × String) := []
  summary : String := ""
deriving DecidableEq, Repr

/-- Feed entity from services/opds.py with the dataclass defaults; the
query-parameter dict is an association list. -/
structure Feed : Type where
  title : String
  id : String
  updated_time : String
  endpoint : String
  links : String := ""
  items : List Item := []
  page : Nat := 1
  previous : Bool := false
  next : Bool := false
  parameters : List (String × String) := []
deriving DecidableEq, Repr

/-- Extension-to-MIME table of services/opds.py, in source order. -/
def MIME_BY_EXT : List (String × String) :=
  [("epub", "application/epub+zip"),
   ("pdf", "application/pdf"),
   ("mobi", "application/x-mobipocket-ebook"),
   ("fb2", "application/x-fictionbook+xml"),
   ("djvu", "image/vnd.djvu")]

/-- Expansion of one character under html.escape with quote=True.  The
Python source applies successive single-character replaces (ampersand
first); since no later replacement target occurs in any earlier
replacement string, that chain acts independently per input character and
equals this per-character expansion. -/
def escapeChar (c : Char) : List Char :=
  if c == '&' then "&amp;".data
  else if c == '<' then "&lt;".data
  else if c == '>' then "&gt;".data
  else if c == Char.ofNat 34 then "&quot;".data
  else if c == Char.ofNat 39 then "&#x27;".data
  else [c]

/-- Embedding of xml_text: html.escape of the str rendering with
quote=True. -/
def xml_text (s : String) : String := String.mk (s.data.flatMap escapeChar)

/-- Embedding of fmt_dt.  Timestamps are carried as already-formatted
strings in this development, so the strftime conversion is the identity;
no claim inspects timestamp contents. -/
def fmt_dt (s : String) : String := s

/-- Embedding of get_book_mime_type: dict lookup on the lowercased
extension with the octet-stream default. -/
def get_book_mime_type (extension : String) : String :=
  match MIME_BY_EXT.find? (fun p => p.1 == asciiLower extension) with
  | some p => p.2
  | none => "application/octet-stream"

/-- Static search link of every feed. -/
def get_search_link : String :=
  "<link type=\"application/opensearchdescription+xml\" rel=\"search\" title=\"Search\" href=\"/opds/opensearch.xml\"/>"

/-- Static start link of every feed. -/
def get_start_link : String :=
  "<link rel=\"start\" href=\"/opds\" type=\"application/atom+xml;profile=opds-catalog;kind=navigation\"/>"

/-- Embedding of get_author_xml: the author block for a present author, the
empty string for the empty author dict. -/
def get_author_xml (author : Option (Int × String)) : String :=
  match author with
  | some a =>
      "\n            <author>\n                <name>" ++ xml_text a.2 ++
        "</name>\n                <uri>/opds/author/" ++ xml_text (toString a.1) ++
        "</uri>\n            </author>\n        "
  | none => ""

/-- Embedding of get_files_xml: one acquisition link per file record. -/
def get_files_xml (book_id : Int) (files : List (String × String)) : String :=
  if files.isEmpty then ""
  else
    String.join (files.map (fun file =>
      let file_format := asciiLower file.1
      "\n            <link rel=\"http://opds-spec.org/acquisition\" type=\"" ++
        get_book_mime_type file_format ++ "\" href=\"/opds/book/" ++ toString book_id ++
        "/file/" ++ file_format ++ "\"/>"))

/-- Query-string suffix appended to every pagination link: the encoded
feed parameters behind an escaped ampersand, or nothing. -/
def query_string (feed : Feed) : String :=
  if feed.parameters.isEmpty then "" else "&amp;" ++ urlencode_pairs feed.parameters

/-- Self link of a feed, pointing at the current page. -/
def self_link (feed : Feed) : String :=
  "\n        <link rel=\"self\" href=\"" ++ feed.endpoint ++ "?page=" ++
    toString feed.page ++ query_string feed ++
    "\"\n            type=\"application/atom+xml;profile=opds-catalog\"/>"

/-- First link of a feed, pointing at page 1. -/
def first_link (feed : Feed) : String :=
  "\n        <link rel=\"first\" href=\"" ++ feed.endpoint ++ "?page=1" ++
    query_string feed ++
    "\"\n            type=\"application/atom+xml;profile=opds-catalog\"/>"

/-- Previous link of a feed, pointing at the preceding page. -/
def previous_link (feed : Feed) : String :=
  "\n        <link rel=\"previous\" href=\"" ++ feed.endpoint ++ "?page=" ++
    toString (feed.page - 1) ++ query_string feed ++
    "\"\n            type=\"application/atom+xml;profile=opds-catalog\"/>"

/-- Next link of a feed, pointing at the following page. -/
def next_link (feed : Feed) : String :=
  "\n        <link rel=\"next\" href=\"" ++ feed.endpoint ++ "?page=" ++
    toString (feed.page + 1) ++ query_string feed ++
    "\"\n            type=\"application/atom+xml;profile=opds-catalog\"/>\n        "

/-- Embedding of create_feed_links: fixed links, self and first always,
previous and next guarded by the pagination flags. -/
def create_feed_links (feed : Feed) : String :=
  "\n        " ++ feed.links ++ "\n        " ++ get_start_link ++ "\n        " ++
    get_search_link ++ "\n    " ++ self_link feed ++ first_link feed ++
    (if feed.previous then previous_link feed else "") ++
    (if feed.next then next_link feed else "")

/-- Serialized entry of one item inside generate_feed. -/
def entry_xml (item : Item) : String :=
  "\n        <entry>\n            <title>" ++ xml_text item.title ++
    "</title>\n            <id>" ++ xml_text item.id ++ "</id>\n            " ++
    get_author_xml item.author ++ "\n            <updated>" ++
    fmt_dt item.updated_time ++ "</updated>\n            " ++
    get_files_xml item.db_id item.files ++ "\n            " ++ item.links ++
    "\n        </entry>\n    "

/-- Embedding of generate_feed: the Atom document assembled from the feed
header, the links and the serialized entries. -/
def generate_feed (feed : Feed) : String :=
  "<?xml version=\"1.0\" encoding=\"utf-8\"?>\n    <feed xmlns=\"http://www.w3.org/2005/Atom\">\n        <title>" ++
    xml_text feed.title ++ "</title>\n        <id>" ++ xml_text feed.id ++
    "</id>\n        <updated>" ++ fmt_dt feed.updated_time ++
    "</updated>\n        <author>\n            <name>Calibre OPDS Server</name>\n        </author>\n        " ++
    create_feed_links feed ++ "\n        " ++
    String.join (feed.items.map entry_xml) ++ "\n    </feed>"

/-- Embedding of generate_root_feed: the static three-entry navigation
feed.  The now argument carries the wall-clock timestamp. -/
def generate_root_feed (endpoint : String) (now : String) : String :=
  generate_feed
    { title := "Calibre OPDS Catalog"
      id := "urn:opds-server:main"
      updated_time := now
      endpoint := endpoint
      items :=
        [{ title := "By Newest"
           id := "urn:opds-server:by-newest:"
           updated_time := now
           links := "<link rel=\"http://opds-spec.org/sort\" href=\"/opds/by-newest\" type=\"application/atom+xml;type=feed;profile=opds-catalog\"/>"
           summary := "Browse books by newest" },
         { title := "By Title"
           id := "urn:opds-server:by-title:"
           updated_time := now
           links := "<link rel=\"http://opds-spec.org/sort\" href=\"/opds/by-title\" type=\"application/atom+xml;type=feed;profile=opds-catalog\"/>"
           summary := "Browse books by title" },
         { title := "By Author"
           id := "urn:opds-server:by-author:"
           updated_time := now
           links := "<link rel=\"http://opds-spec.org/sort\" href=\"/opds/by-author\" type=\"application/atom+xml;type=feed;profile=opds-catalog\"/>"
           summary := "Browse books by author" }] }

/-- Embedding of items_from_books: map each fetched book to an Item.  The
source indexes book["authors"][0] unconditionally, so a book with an empty
author list raises IndexError. -/
def items_from_books (books : List (Int × Book)) (coverHrefOf : Int → String) :
    Except PyErr (List Item) :=
  match books with
  | [] => .ok []
  | (book_id, book) :: rest =>
      match book.authors with
      | [] => .error .indexError
      | a :: _ =>
          match items_from_books rest coverHrefOf with
          | .error e => .error e
          | .ok items =>
              .ok ({ title := book.title
                     id := generate_book_id (toString book_id)
                     db_id := book_id
                     updated_time := book.last_modified
                     author := some a
                     files := book.files
                     links := coverHrefOf book_id } :: items)

/-- Cover link literal attached to every item by items_from_books. -/
def cover_link (book_id : Int) : String :=
  "<link type=\"image/jpeg\" href=\"/opds/book/" ++ toString book_id ++
    "/cover\" rel=\"http://opds-spec.org/image\"/>"

/-- Declared parameter names of get_books in db/access.py. -/
def get_books_params : List String := ["sort", "page", "limit"]

/-- Declared parameter names of get_authors in db/access.py. -/
def get_authors_params : List String := ["page", "limit"]

/-- Declared parameter names of get_author_books in db/access.py. -/
def get_author_books_params : List String := ["author_id", "page", "limit"]

/-- Declared parameter names of search_books in db/access.py. -/
def search_books_params : List String := ["query", "page", "limit"]

/-- Declared parameter names of get_author_name in db/access.py. -/
def get_author_name_params : List String := ["author_id"]

/-- Declared parameter names of get_book_file_path in db/access.py. -/
def get_book_file_path_params : List String := ["book_id", "book_format"]

/-- Declared parameter names of get_book_title in db/access.py. -/
def get_book_title_params : List String := ["book_id"]

/-- Declared parameter names of get_cover_path in db/access.py. -/
def get_cover_path_params : List String := ["book_id"]

/-- Python call binding for a call with posCount positional arguments and
the given keyword-argument names: binding succeeds only when the
positional arguments fit the parameter list and every keyword names a
declared parameter that is not already bound positionally; otherwise the
call raises TypeError before the callee body runs. -/
def bindCall (params : List String) (posCount : Nat) (kwargs : List String) :
    Except PyErr Unit :=
  if posCount ≤ params.length &&
      kwargs.all (fun k => (params.drop posCount).contains k) then
    .ok ()
  else .error (.typeError "argument binding failed")

/-- Multiplication of an int by a dynamically typed Python value: raises
TypeError unless the value is an int. -/
def pyMulInt (n : Int) (v : PyVal) : Except PyErr Int :=
  match v with
  | .int m => .ok (n * m)
  | .config _ => .error (.typeError "unsupported operand types for mul: int and Config")

/-- Embedding of the get_authors body as invoked with a dynamically typed
limit argument: the first statement offset = (page - 1) * limit raises
TypeError when limit is not an int; with an int limit it behaves as
get_authors. -/
def get_authors_dyn (tbl : List AuthorRow) (page : Nat) (limitv : PyVal) :
    Except PyErr (List (Int × String) × Bool × Bool) :=
  match pyMulInt ((page : Int) - 1) limitv with
  | .error e => .error e
  | .ok _ =>
      match limitv with
      | .int n => .ok (get_authors tbl page n.toNat)
      | .config _ => .error (.typeError "unsupported operand types for mul: int and Config")

/-- Feed value constructed by generate_book_search_feed around the search
results: the search term is echoed into the title and id and recorded in
the parameters dict that pagination links carry forward. -/
def search_feed_of_results (endpoint query : String) (page : Nat) (now : String)
    (items : List Item) (has_previous has_next : Bool) : Feed :=
  { title := "Search results for " ++ String.mk [Char.ofNat 39] ++ query ++ String.mk [Char.ofNat 39]
    id := "urn:opds-server:search:" ++ query
    updated_time := now
    items := items
    endpoint := endpoint
    page := page
    next := has_next
    previous := has_previous
    parameters := [("q", query)] }

/-- Embedding of generate_newest_feed: the call
get_books(sort=…, page=…, config=…) passes the keyword config that
get_books does not declare, so binding raises TypeError; the continuation
(never reached) paginates with the declared default limit and builds the
feed. -/
def generate_newest_feed (rows : List BookRow) (links : List (Int × Int × String))
    (fileRows : List (Int × String × String)) (endpoint : String) (page : Nat)
    (config : Config) (now : String) : Except PyErr String := do
  let _ ← bindCall get_books_params 0 ["sort", "page", "config"]
  let r ← get_books rows links fileRows "by_newest" page 10
  let items ← items_from_books r.1 cover_link
  pure (generate_feed
    { title := "Calibre OPDS Catalog"
      id := "urn:opds-server:by-newest"
      updated_time := now
      items := items
      endpoint := endpoint
      page := page
      next := r.2.2
      previous := r.2.1 })

/-- Embedding of generate_title_feed: same shape as generate_newest_feed
with the by_title sort key; the config keyword again fails to bind. -/
def generate_title_feed (rows : List BookRow) (links : List (Int × Int × String))
    (fileRows : List (Int × String × String)) (endpoint : String) (page : Nat)
    (config : Config) (now : String) : Except PyErr String := do
  let _ ← bindCall get_books_params 0 ["sort", "page", "config"]
  let r ← get_books rows links fileRows "by_title" page 10
  let items ← items_from_books r.1 cover_link
  pure (generate_feed
    { title := "Calibre OPDS Catalog"
      id := "urn:opds-server:by-title"
      updated_time := now
      items := items
      endpoint := endpoint
      page := page
      next := r.2.2
      previous := r.2.1 })

/-- Serialized by-author listing assembled by generate_by_author_feed
(never reached, since the repository call raises first). -/
def by_author_feed_xml (authors : List (Int × String)) (page : Nat)
    (has_previous has_next : Bool) (now : String) : String :=
  let endpoint := "/opds/by-author"
  let entries := String.join (authors.map (fun author =>
    "\n        <entry>\n            <title>" ++ xml_text author.2 ++
      "</title>\n            <id>urn:opds-server:author:" ++ xml_text (toString author.1) ++
      "</id>,\n            <author>\n                <name>Calibre OPDS Server</name>\n            </author>\n            <updated>" ++
      fmt_dt now ++ "</updated>\n            <link type=\"application/atom+xml;profile=opds-catalog\" href=\"/opds/author/" ++
      toString author.1 ++ "\"/>\n        </entry>\n    "))
  "<?xml version=\"1.0\" encoding=\"utf-8\"?>\n    <feed xmlns=\"http://www.w3.org/2005/Atom\">\n        <title>By Authors</title>\n        <id>urn:opds-server:by-author</id>\n        <updated>" ++
    fmt_dt now ++ "</updated>\n        <author>\n            <name>Calibre OPDS Server</name>\n        </author>" ++
    "\n        <link rel=\"self\" href=\"" ++ endpoint ++ "?page=" ++ toString page ++
    "\"\n            type=\"application/atom+xml;profile=opds-catalog\"/>" ++
    "\n        <link rel=\"first\" href=\"" ++ endpoint ++ "?page=1" ++
    "\"\n            type=\"application/atom+xml;profile=opds-catalog\"/>" ++
    (if has_previous then
      "\n        <link rel=\"previous\" href=\"" ++ endpoint ++ "?page=" ++ toString (page - 1) ++
        "\"\n            type=\"application/atom+xml;profile=opds-catalog\"/>"
     else "") ++
    (if has_next then
      "\n        <link rel=\"next\" href=\"" ++ endpoint ++ "?page=" ++ toString (page + 1) ++
        "\"\n            type=\"application/atom+xml;profile=opds-catalog\"/>\n        "
     else "") ++
    "\n        " ++ entries ++ "\n    </feed>"

/-- Embedding of generate_by_author_feed: the call get_authors(page, config)
binds the Config object positionally to the int parameter limit, and the
multiplication inside get_authors then raises TypeError. -/
def generate_by_author_feed (tbl : List AuthorRow) (page : Nat) (config : Config)
    (now : String) : Except PyErr String := do
  let r ← get_authors_dyn tbl page (.config config)
  pure (by_author_feed_xml r.1 page r.2.1 r.2.2 now)

/-- Embedding of generate_author_feed: the calls
get_author_books(author_id, page=…, config=…) and
get_author_name(author_id, config) both fail to bind; the first raises
TypeError before any feed is produced. -/
def generate_author_feed (rows : List BookRow) (links : List (Int × Int × String))
    (fileRows : List (Int × String × String)) (tbl : List AuthorRow)
    (endpoint : String) (author_id : Int) (page : Nat) (config : Config)
    (now : String) : Except PyErr String := do
  let _ ← bindCall get_author_books_params 1 ["page", "config"]
  let r := get_author_books rows links fileRows author_id page 10
  let items ← items_from_books r.1 cover_link
  let _ ← bindCall get_author_name_params 2 []
  let author_name ← get_author_name tbl author_id
  pure (generate_feed
    { title := "Books by " ++ author_name
      id := "urn:opds-server:author:" ++ toString author_id
      updated_time := now
      items := items
      endpoint := endpoint
      page := page
      next := r.2.2
      previous := r.2.1 })

/-- Embedding of generate_book_search_feed: the call
search_books(query, page, config=…) passes the keyword config that
search_books does not declare, so binding raises TypeError; the
continuation would build the search feed with the term in the parameters
dict. -/
def generate_book_search_feed (rows : List BookRow) (links : List (Int × Int × String))
    (fileRows : List (Int × String × String)) (endpoint query : String) (page : Nat)
    (config : Config) (now : String) : Except PyErr String := do
  let _ ← bindCall search_books_params 2 ["config"]
  let r := search_books rows links fileRows query page 10
  let items ← items_from_books r.1 cover_link
  pure (generate_feed (search_feed_of_results endpoint query page now items r.2.1 r.2.2))

/-- OpenSearch description document returned by the opensearch route. -/
def opensearch_document : String :=
  "<?xml version=\"1.0\" encoding=\"UTF-8\"?>\n    <OpenSearchDescription xmlns=\"http://a9.com/-/spec/opensearch/1.1/\">\n      <ShortName>OPDS Search</ShortName>\n      <Description>Search books in the OPDS catalog</Description>\n      <Url type=\"application/atom+xml;profile=opds-catalog;kind=acquisition\"\n           template=\"/opds/search?q=\x7bsearchTerms\x7d\"/>\n    </OpenSearchDescription>\n    "

/-- Sample of normal book ids used to check id distinctness concretely. -/
def bookIdSamples : List Int :=
  [1, 2, 3, 4, 5, 6, 7, 8, 9, 10, 11, 12]

/-- Well-formed XML text content: a concatenation of ordinary characters
(none of the five reserved ones) and the five escape entities.  A character
list in this predicate re-parses as text content without terminating or
corrupting the enclosing element. -/
inductive XmlSafe : List Char → Prop
  | nil : XmlSafe []
  | plain (c : Char) (rest : List Char)
      (h1 : c ≠ '&') (h2 : c ≠ '<') (h3 : c ≠ '>')
      (h4 : c ≠ Char.ofNat 34) (h5 : c ≠ Char.ofNat 39) :
      XmlSafe rest → XmlSafe (c :: rest)
  | amp (rest : List Char) : XmlSafe rest → XmlSafe ("&amp;".data ++ rest)
  | lt (rest : List Char) : XmlSafe rest → XmlSafe ("&lt;".data ++ rest)
  | gt (rest : List Char) : XmlSafe rest → XmlSafe ("&gt;".data ++ rest)
  | quot (rest : List Char) : XmlSafe rest → XmlSafe ("&quot;".data ++ rest)
  | apos (rest : List Char) : XmlSafe rest → XmlSafe ("&#x27;".data ++ rest)

/-- Pattern characters with no wildcard meaning: true when the list avoids
the percent and underscore wildcards of SQL LIKE. -/
def wildcardFree (l : List Char) : Bool :=
  l.all (fun c => !(c == '%') && !(c == '_'))

/-- Small demonstration books table used by concrete witnesses. -/
def demoBooks : List BookRow :=
  [{ id := 1, title := "Alpha", last_modified := "2024-01-01", path := "Alpha (1)", sort := "Alpha" },
   { id := 2, title := "Beta", last_modified := "2024-01-02", path := "Beta (2)", sort := "Beta" }]

/-- Demonstration books_authors_link rows (book id, author id, name). -/
def demoLinks : List (Int × Int × String) :=
  [(1, 10, "Ann"), (2, 11, "Ben")]

/-- Demonstration data table rows (book id, format, file name). -/
def demoFiles : List (Int × String × String) :=
  [(1, "EPUB", "Alpha - Ann")]

/-- Demonstration authors table used by concrete witnesses. -/
def demoAuthors : List AuthorRow :=
  [{ id := 10, name := "Ann", sort := "Ann" }, { id := 11, name := "Ben", sort := "Ben" }]

set_option maxRecDepth 100000

theorem dictInsert_length (k : Int) (v : Book) (d : List (Int × Book)) :
    (dictInsert k v d).length ≤ d.length + 1 := by
  unfold dictInsert
  split
  · simp
  · simp

theorem foldl_dictInsert_length {α : Type}
    (f : List (Int × Book) → α → List (Int × Book))
    (hf : ∀ acc x, (f acc x).length ≤ acc.length + 1) :
    ∀ (l : List α) (acc : List (Int × Book)),
      (l.foldl f acc).length ≤ acc.length + l.length := by
  intro l
  induction l with
  | nil => intro acc; simp
  | cons x xs ih =>
      intro acc
      have h1 := ih (f acc x)
      have h2 := hf acc x
      simp only [List.foldl_cons, List.length_cons]
      omega

theorem add_authors_length (links : List (Int × Int × String)) (rows : List BookRow) :
    (add_authors links rows).length ≤ rows.length := by
  have h := foldl_dictInsert_length
    (fun acc r =>
      dictInsert r.id
        { title := r.title
          last_modified := r.last_modified
          authors := (links.filter (fun l => l.1 == r.id)).map (fun l => (l.2.1, l.2.2))
          files := [] } acc)
    (fun acc r => dictInsert_length _ _ _) rows []
  simpa [add_authors] using h

theorem add_files_length (fileRows : List (Int × String × String))
    (d : List (Int × Book)) : (add_files fileRows d).length = d.length := by
  simp [add_files]

/-- C1: for every page at least 1 and every pageSize, the book-listing
operations paginate through select_books, which fetches pageSize+1 rows at
offset (page-1)*pageSize, returns at most pageSize books as page content,
reports hasNext exactly when strictly more than pageSize rows exist at that
offset (that is, when the fetch of pageSize+1 rows returns more than
pageSize), reports hasPrevious exactly when the offset is positive, and on
page 1 never reports hasPrevious; get_books (both sort keys), search_books
and get_author_books all delegate to select_books on their ordered result
sets. -/
theorem select_books_pagination (rows : List BookRow)
    (links : List (Int × Int × String)) (fileRows : List (Int × String × String))
    (page limit : Nat) (h : 1 ≤ page) :
    (select_books rows links fileRows page limit).1.length ≤ limit ∧
    ((select_books rows links fileRows page limit).2.2 = true ↔
      limit + 1 ≤ (rows.drop ((page - 1) * limit)).length) ∧
    ((select_books rows links fileRows page limit).2.1 = true ↔
      0 < (page - 1) * limit) ∧
    (page = 1 → (select_books rows links fileRows page limit).2.1 = false) ∧
    (get_books rows links fileRows "by_title" page limit =
      .ok (select_books (sortLe (fun a b => strLe a.title b.title) rows)
        links fileRows page limit)) ∧
    (get_books rows links fileRows "by_newest" page limit =
      .ok (select_books (sortLe (fun a b => strLe a.last_modified b.last_modified) rows)
        links fileRows page limit)) ∧
    (∀ q : String, search_books rows links fileRows q page limit =
      select_books (sortLe (fun a b => strLe a.sort b.sort)
        (rows.filter (fun b => search_matches q b.title))) links fileRows page limit) ∧
    (∀ aid : Int, get_author_books rows links fileRows aid page limit =
      select_books (sortLe (fun a b => strLe a.sort b.sort)
        (rows.filter (fun b => links.any (fun l => l.1 == b.id && l.2.1 == aid))))
        links fileRows page limit) := by
  refine ⟨?_, ?_, ?_, ?_, rfl, rfl, fun q => rfl, fun aid => rfl⟩
  · have h1 := add_authors_length links
      ((((rows.drop ((page - 1) * limit)).take (limit + 1)).take limit))
    have h2 := add_files_length fileRows
      (add_authors links ((((rows.drop ((page - 1) * limit)).take (limit + 1)).take limit)))
    simp only [select_books]
    simp only [List.length_take] at *
    omega
  · simp only [select_books, decide_eq_true_eq, List.length_take]
    omega
  · simp only [select_books, decide_eq_true_eq]
  · intro hp
    subst hp
    simp [select_books]

/-- Witness for select_books_pagination at a concrete instance: the demo
library, page 1, pageSize 1. -/
theorem select_books_pagination_witness :
    1 ≤ 1 ∧
    ((select_books demoBooks demoLinks demoFiles 1 1).1.length ≤ 1 ∧
    ((select_books demoBooks demoLinks demoFiles 1 1).2.2 = true ↔
      1 + 1 ≤ (demoBooks.drop ((1 - 1) * 1)).length) ∧
    ((select_books demoBooks demoLinks demoFiles 1 1).2.1 = true ↔
      0 < (1 - 1) * 1) ∧
    (1 = 1 → (select_books demoBooks demoLinks demoFiles 1 1).2.1 = false) ∧
    (get_books demoBooks demoLinks demoFiles "by_title" 1 1 =
      .ok (select_books (sortLe (fun a b => strLe a.title b.title) demoBooks)
        demoLinks demoFiles 1 1)) ∧
    (get_books demoBooks demoLinks demoFiles "by_newest" 1 1 =
      .ok (select_books (sortLe (fun a b => strLe a.last_modified b.last_modified) demoBooks)
        demoLinks demoFiles 1 1)) ∧
    (∀ q : String, search_books demoBooks demoLinks demoFiles q 1 1 =
      select_books (sortLe (fun a b => strLe a.sort b.sort)
        (demoBooks.filter (fun b => search_matches q b.title))) demoLinks demoFiles 1 1) ∧
    (∀ aid : Int, get_author_books demoBooks demoLinks demoFiles aid 1 1 =
      select_books (sortLe (fun a b => strLe a.sort b.sort)
        (demoBooks.filter (fun b => demoLinks.any (fun l => l.1 == b.id && l.2.1 == aid))))
        demoLinks demoFiles 1 1)) :=
  ⟨by decide, select_books_pagination demoBooks demoLinks demoFiles 1 1 (by decide)⟩

/-- C2: every paginated feed builder raises TypeError on every input —
generate_newest_feed, generate_title_feed, generate_author_feed and
generate_book_search_feed pass the keyword argument config that
get_books, get_author_books and search_books do not declare, and
generate_by_author_feed passes the Config object positionally into the
int-typed limit of get_authors, whose offset multiplication then raises —
while the root feed, the OpenSearch document and the call bindings of the
file and cover download path succeed. -/
theorem feed_builders_raise_type_error :
    (∀ rows links fileRows endpoint page config now,
      isTypeError (generate_newest_feed rows links fileRows endpoint page config now) = true) ∧
    (∀ rows links fileRows endpoint page config now,
      isTypeError (generate_title_feed rows links fileRows endpoint page config now) = true) ∧
    (∀ tbl page config now,
      isTypeError (generate_by_author_feed tbl page config now) = true) ∧
    (∀ rows links fileRows tbl endpoint author_id page config now,
      isTypeError (generate_author_feed rows links fileRows tbl endpoint author_id page config now) = true) ∧
    (∀ rows links fileRows endpoint query page config now,
      isTypeError (generate_book_search_feed rows links fileRows endpoint query page config now) = true) ∧
    (∀ endpoint now, ∃ s, generate_root_feed endpoint now = s) ∧
    (∃ s, opensearch_document = s) ∧
    bindCall get_book_file_path_params 2 [] = .ok () ∧
    bindCall get_book_title_params 1 [] = .ok () ∧
    bindCall get_cover_path_params 1 [] = .ok () := by
  refine ⟨?_, ?_, ?_, ?_, ?_, ?_, ⟨_, rfl⟩, rfl, rfl, rfl⟩
  · intro rows links fileRows endpoint page config now; rfl
  · intro rows links fileRows endpoint page config now; rfl
  · intro tbl page config now; rfl
  · intro rows links fileRows tbl endpoint author_id page config now; rfl
  · intro rows links fileRows endpoint query page config now; rfl
  · intro endpoint now; exact ⟨_, rfl⟩

/-- C3: contrary to the claim, get_authors does not truncate the fetched
look-ahead row away from the returned page content: with two authors,
page 1 and pageSize 1 it fetches pageSize+1 = 2 rows and returns both of
them (2 > pageSize) while also reporting hasNext. -/
theorem get_authors_returns_lookahead_row :
    (get_authors demoAuthors 1 1).1 = [(10, "Ann"), (11, "Ben")] ∧
    (get_authors demoAuthors 1 1).1.length = 2 ∧
    (get_authors demoAuthors 1 1).2.2 = true := by
  refine ⟨by decide, by decide, by decide⟩

/-- C4: contrary to the claim, mapping repository results with an
empty-author book does not succeed: items_from_books indexes the author
list unconditionally and raises IndexError on a book whose author list is
empty. -/
theorem items_from_books_empty_author_index_error :
    items_from_books
      [(1, { title := "T", last_modified := "2024-01-01", authors := [], files := [] })]
      cover_link = .error .indexError := by
  rfl

theorem startsWith_nil_pat (l : List Char) : startsWith l [] = true := by
  cases l <;> rfl

theorem startsWith_append (pat b : List Char) : startsWith (pat ++ b) pat = true := by
  induction pat with
  | nil => simpa using startsWith_nil_pat b
  | cons c cs ih => simp [startsWith, ih]

theorem hasSub_nil_pat (l : List Char) : hasSub l [] = true := by
  cases l <;> rfl

theorem hasSub_mid (a pat b : List Char) : hasSub (a ++ (pat ++ b)) pat = true := by
  induction a with
  | nil =>
      cases pat with
      | nil => simpa using hasSub_nil_pat b
      | cons p ps =>
          have h := startsWith_append (p :: ps) b
          simp only [List.cons_append] at h
          simp [hasSub, h]
  | cons x xs ih => simp [hasSub, ih]

/-- C6 (counterexample): when the metadata store is missing, the detail of
the raised 500 contains the absolute filesystem path of the store, and
http_exception_handler returns that detail verbatim as the client-visible
response body. -/
theorem db_path_leak_counterexample :
    (http_exception_handler 500 (db_not_found_detail ("/books/metadata.db"))).1 =
      db_not_found_detail ("/books/metadata.db") ∧
    hasSub (http_exception_handler 500 (db_not_found_detail ("/books/metadata.db"))).1.data
      ("/books/metadata.db").data = true := by
  exact ⟨rfl, by decide⟩

/-- C6 (amended): the client-visible details of the per-request 4xx errors
(book, author, cover, file, invalid sort) contain no filesystem path — no
slash at all when the interpolated id and format are slash-free — and the
handler returns exc.detail verbatim; however the 500 detail raised for a
missing metadata store embeds the absolute store path, which therefore
reaches the client. -/
theorem error_detail_paths_amended (idStr fmt path : String)
    (h1 : '/' ∉ idStr.data) (h2 : '/' ∉ fmt.data) :
    '/' ∉ book_not_found_detail.data ∧
    '/' ∉ cover_not_found_detail.data ∧
    '/' ∉ author_not_found_detail.data ∧
    '/' ∉ invalid_sort_detail.data ∧
    '/' ∉ (book_with_id_not_found_detail idStr).data ∧
    '/' ∉ (book_file_not_found_detail idStr fmt).data ∧
    (∀ status detail, (http_exception_handler status detail).1 = detail) ∧
    hasSub (http_exception_handler 500 (db_not_found_detail path)).1.data path.data = true := by
  refine ⟨by decide, by decide, by decide, by decide, ?_, ?_, fun status detail => rfl, ?_⟩
  · simp only [book_with_id_not_found_detail, String.data_append, List.mem_append, not_or]
    exact ⟨⟨by decide, h1⟩, by decide⟩
  · simp only [book_file_not_found_detail, String.data_append, List.mem_append, not_or]
    exact ⟨⟨⟨by decide, h1⟩, by decide⟩, h2⟩
  · have hdata : (db_not_found_detail path).data =
        "Calibre DB not found at ".data ++ (path.data ++ []) := by
      simp [db_not_found_detail, String.data_append]
    show hasSub (db_not_found_detail path).data path.data = true
    rw [hdata]
    exact hasSub_mid _ _ _

/-- Witness for error_detail_paths_amended at the concrete inputs 7, EPUB
and the default store path. -/
theorem error_detail_paths_amended_witness :
    ('/' ∉ ("7").data ∧ '/' ∉ ("EPUB").data) ∧
    ('/' ∉ book_not_found_detail.data ∧
    '/' ∉ cover_not_found_detail.data ∧
    '/' ∉ author_not_found_detail.data ∧
    '/' ∉ invalid_sort_detail.data ∧
    '/' ∉ (book_with_id_not_found_detail ("7")).data ∧
    '/' ∉ (book_file_not_found_detail ("7") ("EPUB")).data ∧
    (∀ status detail, (http_exception_handler status detail).1 = detail) ∧
    hasSub (http_exception_handler 500 (db_not_found_detail ("/books/metadata.db"))).1.data
      ("/books/metadata.db").data = true) :=
  ⟨⟨by decide, by decide⟩,
    error_detail_paths_amended ("7") ("EPUB") ("/books/metadata.db") (by decide) (by decide)⟩

/-- C5 (counterexample): the source MIME table has no entries for azw3,
azw, cbz, cbr, txt or rtf, so get_book_mime_type maps these to the
octet-stream default rather than to the MIME types the claim specifies. -/
theorem mime_table_counterexample :
    get_book_mime_type ("azw3") = "application/octet-stream" ∧
    get_book_mime_type ("azw3") ≠ "application/vnd.amazon.ebook" ∧
    get_book_mime_type ("txt") = "application/octet-stream" ∧
    get_book_mime_type ("txt") ≠ "text/plain;charset=utf-8" ∧
    get_book_mime_type ("cbz") = "application/octet-stream" ∧
    get_book_mime_type ("rtf") = "application/octet-stream" := by
  refine ⟨by decide, by decide, by decide, by decide, by decide, by decide⟩

/-- C5 (amended): get_book_mime_type depends only on the ASCII-lowercased
extension (hence is case-insensitive), maps the five table entries epub,
pdf, mobi, fb2 and djvu to their exact MIME types, and maps every
extension outside the table — including azw3 and the other extensions the
claim lists — to application/octet-stream. -/
theorem get_book_mime_type_spec (s t ext : String)
    (hlow : asciiLower s = asciiLower t)
    (h : asciiLower ext ∉ ["epub", "pdf", "mobi", "fb2", "djvu"]) :
    get_book_mime_type s = get_book_mime_type t ∧
    get_book_mime_type ext = "application/octet-stream" ∧
    get_book_mime_type ("epub") = "application/epub+zip" ∧
    get_book_mime_type ("PDF") = "application/pdf" ∧
    get_book_mime_type ("mobi") = "application/x-mobipocket-ebook" ∧
    get_book_mime_type ("fb2") = "application/x-fictionbook+xml" ∧
    get_book_mime_type ("DjVu") = "image/vnd.djvu" := by
  refine ⟨?_, ?_, by decide, by decide, by decide, by decide, by decide⟩
  · unfold get_book_mime_type
    rw [hlow]
  · have hnone : MIME_BY_EXT.find? (fun p => p.1 == asciiLower ext) = none := by
      rw [List.find?_eq_none]
      intro x hx
      simp only [MIME_BY_EXT, List.mem_cons, List.not_mem_nil, or_false] at hx
      rcases hx with h1 | h1 | h1 | h1 | h1 <;> subst h1 <;>
        · simp only [beq_iff_eq]
          intro he
          apply h
          rw [← he]
          simp
    unfold get_book_mime_type
    rw [hnone]

/-- Witness for get_book_mime_type_spec at EPUB/epub and azw3. -/
theorem get_book_mime_type_spec_witness :
    (asciiLower ("EPUB") = asciiLower ("epub") ∧
      asciiLower ("azw3") ∉ ["epub", "pdf", "mobi", "fb2", "djvu"]) ∧
    (get_book_mime_type ("EPUB") = get_book_mime_type ("epub") ∧
    get_book_mime_type ("azw3") = "application/octet-stream" ∧
    get_book_mime_type ("epub") = "application/epub+zip" ∧
    get_book_mime_type ("PDF") = "application/pdf" ∧
    get_book_mime_type ("mobi") = "application/x-mobipocket-ebook" ∧
    get_book_mime_type ("fb2") = "application/x-fictionbook+xml" ∧
    get_book_mime_type ("DjVu") = "image/vnd.djvu") :=
  ⟨⟨by decide, by decide⟩,
    get_book_mime_type_spec ("EPUB") ("epub") ("azw3") (by decide) (by decide)⟩

set_option maxHeartbeats 4000000

/-- C7: item id derivation is exactly the calibre-navcatalog prefix joined
to the lowercase hex SHA-1 of the stripped decimal rendering of the book
id; it is a pure function of the book id (computing it twice gives
identical strings), and over the sample of normal book ids all derived ids
are pairwise distinct. -/
theorem generate_book_id_stable_and_distinct :
    (∀ id : Int, generate_book_id (toString id) =
      "calibre-navcatalog:" ++ sha1hex (utf8Encode (pyStrip (toString id)))) ∧
    (∀ id : Int, generate_book_id (toString id) = generate_book_id (toString id)) ∧
    (bookIdSamples.map (fun i => generate_book_id (toString i))).Nodup := by
  refine ⟨fun i => rfl, fun i => rfl, ?_⟩
  decide

theorem char_toNat_ofNat_valid (n : Nat) (h : n.isValidChar) :
    (Char.ofNat n).toNat = n := by
  unfold Char.ofNat
  rw [dif_pos h]
  rfl

theorem char_beq_iff (a b : Char) : (a == b) = true ↔ a.toNat = b.toNat := by
  rw [beq_iff_eq]
  constructor
  · intro h; rw [h]
  · intro h
    apply Char.ext
    exact UInt32.toNat.inj h

theorem lowerChar_beq_false (c w : Char) (hw : w.toNat = 37 ∨ w.toNat = 95)
    (h : (c == w) = false) : (lowerChar c == w) = false := by
  unfold lowerChar
  split
  next h2 =>
    simp only [Bool.and_eq_true, decide_eq_true_eq] at h2
    have hv : (Char.ofNat (c.toNat + 32)).toNat = c.toNat + 32 := by
      apply char_toNat_ofNat_valid
      left
      omega
    cases hbe : (Char.ofNat (c.toNat + 32) == w) with
    | false => rfl
    | true =>
        exfalso
        have := (char_beq_iff _ _).mp hbe
        rw [hv] at this
        omega
  next h2 => exact h

theorem wildcardFree_lowerL (l : List Char) (h : wildcardFree l = true) :
    wildcardFree (lowerL l) = true := by
  induction l with
  | nil => rfl
  | cons c rest ih =>
      simp only [wildcardFree, lowerL, List.map_cons, List.all_cons, Bool.and_eq_true,
        Bool.not_eq_true'] at h ⊢
      refine ⟨⟨?_, ?_⟩, ih h.2⟩
      · exact lowerChar_beq_false c '%' (Or.inl (by decide)) h.1.1
      · exact lowerChar_beq_false c '_' (Or.inr (by decide)) h.1.2

theorem lm_nil (f : Nat) (s : List Char) (h : 0 < f) :
    likeMatchF f [] s = s.isEmpty := by
  cases f with
  | zero => omega
  | succ f => rfl

theorem lm_pct_only : ∀ (s : List Char) (f : Nat), s.length + 1 < f →
    likeMatchF f ['%'] s = true := by
  intro s
  induction s with
  | nil =>
      intro f hf
      cases f with
      | zero => omega
      | succ f =>
          show likeMatchF (f + 1) ['%'] [] = true
          simp only [likeMatchF]
          rw [lm_nil f [] (by omega)]
          rfl
  | cons c t ih =>
      intro f hf
      cases f with
      | zero => omega
      | succ f =>
          simp only [likeMatchF]
          rw [lm_nil f (c :: t) (by simp at hf; omega)]
          rw [ih f (by simp at hf ⊢; omega)]
          rfl

theorem lm_lit_pct : ∀ (q : List Char), wildcardFree q = true →
    ∀ (s : List Char) (f : Nat), q.length + s.length + 2 ≤ f →
    likeMatchF f (q ++ ['%']) s = startsWith s q := by
  intro q
  induction q with
  | nil =>
      intro _ s f hf
      rw [List.nil_append]
      rw [lm_pct_only s f (by simp at hf ⊢; omega)]
      rw [startsWith_nil_pat]
  | cons c q' ih =>
      intro hw s f hf
      simp only [wildcardFree, List.all_cons, Bool.and_eq_true, Bool.not_eq_true'] at hw
      obtain ⟨⟨hc1, hc2⟩, hw'⟩ := hw
      cases f with
      | zero => simp at hf
      | succ f =>
          cases s with
          | nil =>
              have hstep : likeMatchF (f + 1) (c :: (q' ++ ['%'])) [] = false := by
                simp only [likeMatchF]
                rw [hc1]
                rfl
              rw [List.cons_append, hstep]
              rfl
          | cons d t =>
              have hstep : likeMatchF (f + 1) (c :: (q' ++ ['%'])) (d :: t) =
                  ((c == '_' || c == d) && likeMatchF f (q' ++ ['%']) t) := by
                simp only [likeMatchF]
                rw [hc1]
                rfl
              rw [List.cons_append, hstep, hc2]
              rw [ih hw' t f (by simp at hf ⊢; omega)]
              simp [startsWith]

theorem lm_main : ∀ (s q : List Char) (f : Nat), wildcardFree q = true →
    q.length + s.length + 3 ≤ f →
    likeMatchF f (('%' :: q) ++ ['%']) s = hasSub s q := by
  intro s
  induction s with
  | nil =>
      intro q f hw hf
      cases f with
      | zero => simp at hf
      | succ f =>
          have hstep : likeMatchF (f + 1) ('%' :: (q ++ ['%'])) [] =
              (likeMatchF f (q ++ ['%']) [] || false) := by rfl
          rw [List.cons_append, hstep]
          rw [lm_lit_pct q hw [] f (by simp at hf ⊢; omega)]
          cases q <;> rfl
  | cons c t ih =>
      intro q f hw hf
      cases f with
      | zero => simp at hf
      | succ f =>
          have hstep : likeMatchF (f + 1) ('%' :: (q ++ ['%'])) (c :: t) =
              (likeMatchF f (q ++ ['%']) (c :: t) ||
                likeMatchF f (('%' :: q) ++ ['%']) t) := by rfl
          rw [List.cons_append, hstep]
          rw [lm_lit_pct q hw (c :: t) f (by simp at hf ⊢; omega)]
          rw [ih q f hw (by simp at hf ⊢; omega)]
          rfl

theorem search_matches_eq (q title : String)
    (hq : wildcardFree (lowerL q.data) = true) :
    search_matches q title = hasSub (lowerL title.data) (lowerL q.data) := by
  unfold search_matches likeMatch
  have hp : lowerL (("%" ++ q ++ "%").data) = ('%' :: lowerL q.data) ++ ['%'] := by
    simp [String.data_append, lowerL, show lowerChar '%' = '%' from rfl]
  rw [hp]
  apply lm_main _ _ _ hq
  simp [lowerL]
  omega

/-- C8 (counterexample): the search term is spliced into a LIKE pattern, so
a term containing the underscore wildcard matches titles in which it does
not occur as a substring: the term consisting of one underscore matches
the title xyz (and search_books returns that book) although underscore is
not a substring of xyz. -/
theorem search_like_wildcard_counterexample :
    search_matches ("_") ("xyz") = true ∧
    hasSub (lowerL ("xyz").data) (lowerL ("_").data) = false ∧
    (search_books
      [{ id := 1, title := "xyz", last_modified := "2024-01-01", path := "xyz (1)", sort := "xyz" }]
      [] [] ("_") 1 10).1.length = 1 := by
  refine ⟨by decide, by decide, by decide⟩

/-- C8 (amended): for every search term free of the LIKE wildcards percent
and underscore, search_books matches a book exactly when the term occurs
case-insensitively as a substring of its title; the empty term matches
every title, and the terms Title, title and TITLE produce identical
search_books results.  Terms containing percent or underscore are instead
interpreted with SQL LIKE wildcard semantics. -/
theorem search_matches_ci_substring_amended (q title : String)
    (hq : wildcardFree q.data = true) :
    search_matches q title = hasSub (lowerL title.data) (lowerL q.data) ∧
    (∀ t : String, search_matches ("") t = true) ∧
    (∀ rows links fileRows page limit,
      search_books rows links fileRows ("Title") page limit =
        search_books rows links fileRows ("title") page limit ∧
      search_books rows links fileRows ("TITLE") page limit =
        search_books rows links fileRows ("title") page limit) := by
  refine ⟨search_matches_eq q title (wildcardFree_lowerL _ hq), ?_, ?_⟩
  · intro t
    have h := search_matches_eq ("") t (by decide)
    rw [h]
    exact hasSub_nil_pat _
  · intro rows links fileRows page limit
    constructor
    · have hpat : (fun b : BookRow => search_matches ("Title") b.title) =
          (fun b => search_matches ("title") b.title) := by
        funext b
        unfold search_matches
        rw [show lowerL (("%" ++ "Title" ++ "%").data) = lowerL (("%" ++ "title" ++ "%").data) from by decide]
      unfold search_books
      rw [hpat]
    · have hpat : (fun b : BookRow => search_matches ("TITLE") b.title) =
          (fun b => search_matches ("title") b.title) := by
        funext b
        unfold search_matches
        rw [show lowerL (("%" ++ "TITLE" ++ "%").data) = lowerL (("%" ++ "title" ++ "%").data) from by decide]
      unfold search_books
      rw [hpat]

/-- Witness for search_matches_ci_substring_amended at the wildcard-free
term dune. -/
theorem search_matches_ci_substring_amended_witness :
    wildcardFree ("dune").data = true ∧
    (search_matches ("dune") ("The Dune Saga") =
      hasSub (lowerL ("The Dune Saga").data) (lowerL ("dune").data) ∧
    (∀ t : String, search_matches ("") t = true) ∧
    (∀ rows links fileRows page limit,
      search_books rows links fileRows ("Title") page limit =
        search_books rows links fileRows ("title") page limit ∧
      search_books rows links fileRows ("TITLE") page limit =
        search_books rows links fileRows ("title") page limit)) :=
  ⟨by decide, search_matches_ci_substring_amended ("dune") ("The Dune Saga") (by decide)⟩

theorem notMemAppend {a : Char} {l1 l2 : List Char} (h1 : a ∉ l1) (h2 : a ∉ l2) :
    a ∉ l1 ++ l2 := by
  simp only [List.mem_append, not_or]
  exact ⟨h1, h2⟩

theorem notMemSingle (a c : Char) (h : ¬ c = a) : a ∉ [c] := by
  simp only [List.mem_singleton]
  exact fun he => h he.symm

theorem escape_list_safe (l : List Char) :
    '<' ∉ l.flatMap escapeChar ∧ '>' ∉ l.flatMap escapeChar ∧
    Char.ofNat 34 ∉ l.flatMap escapeChar ∧ Char.ofNat 39 ∉ l.flatMap escapeChar ∧
    XmlSafe (l.flatMap escapeChar) := by
  induction l with
  | nil => exact ⟨by simp, by simp, by simp, by simp, by simpa using XmlSafe.nil⟩
  | cons c rest ih =>
      obtain ⟨ih1, ih2, ih3, ih4, ih5⟩ := ih
      rw [List.flatMap_cons]
      by_cases h1 : c = '&'
      · subst h1
        rw [show escapeChar '&' = "&amp;".data from rfl]
        exact ⟨notMemAppend (by decide) ih1, notMemAppend (by decide) ih2,
          notMemAppend (by decide) ih3, notMemAppend (by decide) ih4,
          XmlSafe.amp _ ih5⟩
      by_cases h2 : c = '<'
      · subst h2
        rw [show escapeChar '<' = "&lt;".data from rfl]
        exact ⟨notMemAppend (by decide) ih1, notMemAppend (by decide) ih2,
          notMemAppend (by decide) ih3, notMemAppend (by decide) ih4,
          XmlSafe.lt _ ih5⟩
      by_cases h3 : c = '>'
      · subst h3
        rw [show escapeChar '>' = "&gt;".data from rfl]
        exact ⟨notMemAppend (by decide) ih1, notMemAppend (by decide) ih2,
          notMemAppend (by decide) ih3, notMemAppend (by decide) ih4,
          XmlSafe.gt _ ih5⟩
      by_cases h4 : c = Char.ofNat 34
      · subst h4
        rw [show escapeChar (Char.ofNat 34) = "&quot;".data from rfl]
        exact ⟨notMemAppend (by decide) ih1, notMemAppend (by decide) ih2,
          notMemAppend (by decide) ih3, notMemAppend (by decide) ih4,
          XmlSafe.quot _ ih5⟩
      by_cases h5 : c = Char.ofNat 39
      · subst h5
        rw [show escapeChar (Char.ofNat 39) = "&#x27;".data from rfl]
        exact ⟨notMemAppend (by decide) ih1, notMemAppend (by decide) ih2,
          notMemAppend (by decide) ih3, notMemAppend (by decide) ih4,
          XmlSafe.apos _ ih5⟩
      · rw [show escapeChar c = [c] from by simp [escapeChar, h1, h2, h3, h4, h5]]
        exact ⟨notMemAppend (notMemSingle _ _ h2) ih1,
          notMemAppend (notMemSingle _ _ h3) ih2,
          notMemAppend (notMemSingle _ _ h4) ih3,
          notMemAppend (notMemSingle _ _ h5) ih4,
          XmlSafe.plain c _ h1 h2 h3 h4 h5 ih5⟩

/-- C9: every free-text field the serializer embeds goes through xml_text
(generate_feed and entry_xml apply it to the feed title and id, the item
titles and ids, and get_author_xml applies it to author names and ids),
and xml_text output never contains a raw angle bracket or quote character
and is a concatenation of ordinary characters and the five escape
entities, so re-parsing cannot fail on reserved characters of the original
text. -/
theorem xml_text_escapes_reserved (s : String) :
    '<' ∉ (xml_text s).data ∧ '>' ∉ (xml_text s).data ∧
    Char.ofNat 34 ∉ (xml_text s).data ∧ Char.ofNat 39 ∉ (xml_text s).data ∧
    XmlSafe (xml_text s).data := by
  exact escape_list_safe s.data

theorem startsWith_self (l : List Char) : startsWith l l = true := by
  induction l with
  | nil => rfl
  | cons c cs ih => simp [startsWith, ih]

theorem hasSub_self (l : List Char) : hasSub l l = true := by
  cases l with
  | nil => rfl
  | cons c cs => simp [hasSub, startsWith_self]

theorem hasSub_mono_left (a l pat : List Char) (h : hasSub l pat = true) :
    hasSub (a ++ l) pat = true := by
  induction a with
  | nil => simpa
  | cons x xs ih => simp [hasSub, ih]

theorem startsWith_mono (l b pat : List Char) (h : startsWith l pat = true) :
    startsWith (l ++ b) pat = true := by
  induction pat generalizing l with
  | nil => exact startsWith_nil_pat _
  | cons p ps ih =>
      cases l with
      | nil => simp [startsWith] at h
      | cons c cs =>
          simp only [List.cons_append, startsWith, Bool.and_eq_true] at h ⊢
          exact ⟨h.1, ih cs h.2⟩

theorem hasSub_mono_right (l b pat : List Char) (h : hasSub l pat = true) :
    hasSub (l ++ b) pat = true := by
  induction l with
  | nil =>
      cases pat with
      | nil => exact hasSub_nil_pat _
      | cons p ps => simp [hasSub] at h
  | cons c cs ih =>
      simp only [hasSub, Bool.or_eq_true] at h
      rcases h with h | h
      · simp only [List.cons_append, hasSub, Bool.or_eq_true]
        left
        exact startsWith_mono (c :: cs) b pat h
      · simp only [List.cons_append, hasSub, Bool.or_eq_true]
        right
        exact ih h

theorem hasSub_str_left (x y : String) (pat : List Char) (h : hasSub y.data pat = true) :
    hasSub (x ++ y).data pat = true := by
  rw [String.data_append]
  exact hasSub_mono_left _ _ _ h

theorem hasSub_str_right (x y : String) (pat : List Char) (h : hasSub x.data pat = true) :
    hasSub (x ++ y).data pat = true := by
  rw [String.data_append]
  exact hasSub_mono_right _ _ _ h

theorem query_string_carries (fd : Feed) (query : String)
    (hp : fd.parameters = [("q", query)]) :
    hasSub (query_string fd).data (("q=" ++ quote_plus query)).data = true := by
  have h1 : query_string fd = "&amp;" ++ (quote_plus ("q") ++ "=" ++ quote_plus query) := by
    unfold query_string
    rw [hp]
    rfl
  have h2 : quote_plus ("q") ++ "=" = ("q=") := rfl
  rw [h1, h2]
  exact hasSub_str_left _ _ _ (hasSub_self _)

/-- C10: the search feed records the term in its query parameters, and each
pagination link href the feed builder constructs — self, first, previous
(emitted when hasPrevious) and next (emitted when hasNext) — contains the
urlencoded q=term parameter in its query string, as does the assembled
link block of create_feed_links. -/
theorem search_feed_links_carry_term (endpoint query now : String) (page : Nat)
    (items : List Item) (has_previous has_next : Bool) :
    (search_feed_of_results endpoint query page now items has_previous has_next).parameters
      = [("q", query)] ∧
    hasSub (self_link (search_feed_of_results endpoint query page now items has_previous has_next)).data
      (("q=" ++ quote_plus query)).data = true ∧
    hasSub (first_link (search_feed_of_results endpoint query page now items has_previous has_next)).data
      (("q=" ++ quote_plus query)).data = true ∧
    hasSub (previous_link (search_feed_of_results endpoint query page now items has_previous has_next)).data
      (("q=" ++ quote_plus query)).data = true ∧
    hasSub (next_link (search_feed_of_results endpoint query page now items has_previous has_next)).data
      (("q=" ++ quote_plus query)).data = true ∧
    hasSub (create_feed_links (search_feed_of_results endpoint query page now items has_previous has_next)).data
      (("q=" ++ quote_plus query)).data = true := by
  have hqs := query_string_carries
    (search_feed_of_results endpoint query page now items has_previous has_next) query rfl
  have hself : hasSub (self_link (search_feed_of_results endpoint query page now items has_previous has_next)).data
      (("q=" ++ quote_plus query)).data = true := by
    unfold self_link
    exact hasSub_str_right _ _ _ (hasSub_str_left _ _ _ hqs)
  refine ⟨rfl, hself, ?_, ?_, ?_, ?_⟩
  · unfold first_link
    exact hasSub_str_right _ _ _ (hasSub_str_left _ _ _ hqs)
  · unfold previous_link
    exact hasSub_str_right _ _ _ (hasSub_str_left _ _ _ hqs)
  · unfold next_link
    exact hasSub_str_right _ _ _ (hasSub_str_left _ _ _ hqs)
  · unfold create_feed_links
    exact hasSub_str_right _ _ _ (hasSub_str_right _ _ _ (hasSub_str_right _ _ _
      (hasSub_str_left _ _ _ hself)))
